import Mathlib

/-!
Shallow embedding of the SoloX device-management subsystem
(`solox/device_management/device_pool.py` and
`solox/device_management/advanced_features.py`) and proofs about it.

Python floats are modelled as rationals (`ℚ`), Python dicts as
association lists with replace-or-append insertion (insertion order,
last write wins), raised exceptions as `Except` values carrying the
exception message, and the awaited backend calls (metrics reads,
recovery actions, pings, setting writes) as explicit oracle arguments.
-/

namespace SoloX

/-- Python dict lookup `m.get(k)` over an association list. -/
def dictLookup {β : Type} : List (String × β) → String → Option β
  | [], _ => none
  | (k', v') :: rest, k => if k' = k then some v' else dictLookup rest k

/-- Python dict assignment `m[k] = v`: replace the (unique) existing
binding of `k` in place, else append a new binding at the end. -/
def dictInsert {β : Type} : List (String × β) → String → β → List (String × β)
  | [], k, v => [(k, v)]
  | (k', v') :: rest, k, v =>
    if k' = k then (k, v) :: rest else (k', v') :: dictInsert rest k v

/-- Python slice `l[-n:]`: the last `n` elements of `l` (all of `l` when
`l.length ≤ n`). -/
def lastN {α : Type} (l : List α) (n : Nat) : List α :=
  l.drop (l.length - n)

/-! ## Device pool (`device_pool.py`) -/

/-- Embeds the `DeviceType` enum, lines 16-19. -/
inductive DeviceType where
  | android
  | ios
deriving Repr, DecidableEq

/-- Embeds the `DeviceInfo` dataclass, lines 21-30, with its field defaults. -/
structure DeviceInfo where
  id : String
  type : DeviceType
  name : String
  version : String
  status : String := "disconnected"
  last_seen : ℚ := 0
  reconnect_attempts : Nat := 0
deriving Repr, DecidableEq

/-- The registry `self.devices : Dict[str, DeviceInfo]`. -/
def DevicePoolMap : Type := List (String × DeviceInfo)

/-- Embeds `DevicePool.add_device`, lines 133-145: insert a fresh record when
the id is absent and return `true`, else leave the map alone and
return `false`. Returns the updated map together with the boolean. -/
def add_device (devices : DevicePoolMap) (device_id : String) (device_type : DeviceType)
    (name version : String) : DevicePoolMap × Bool :=
  match dictLookup devices device_id with
  | some _ => (devices, false)
  | none =>
    (dictInsert devices device_id
      { id := device_id, type := device_type, name := name, version := version },
     true)

/-- Embeds `DevicePool.get_device_info`, lines 156-159: `self.devices.get(device_id)`. -/
def get_device_info (devices : DevicePoolMap) (device_id : String) : Option DeviceInfo :=
  dictLookup devices device_id

/-- Embeds `DevicePool._update_device_status`, lines 95-103: set status and
`last_seen`, and reset `reconnect_attempts` when the new status is
`"connected"`. -/
def update_device_status (d : DeviceInfo) (status : String) (timestamp : ℚ) : DeviceInfo :=
  let d' := { d with status := status, last_seen := timestamp }
  if status = "connected" then { d' with reconnect_attempts := 0 } else d'

/-- Embeds `DevicePool._handle_disconnected_device`, lines 105-118, with the
outcome of `_try_reconnect` supplied as the oracle `reconnect_ok`
(a backend call, lines 120-131). -/
def handle_disconnected_device (d : DeviceInfo) (max_reconnect_attempts : Nat)
    (reconnect_ok : Bool) (timestamp : ℚ) : DeviceInfo :=
  let d₁ := if d.status = "connected" then { d with status := "disconnected" } else d
  if d₁.reconnect_attempts < max_reconnect_attempts then
    let d₂ := { d₁ with reconnect_attempts := d₁.reconnect_attempts + 1 }
    if reconnect_ok then update_device_status d₂ "connected" timestamp
    else { d₂ with last_seen := timestamp }
  else d₁

/-- Reachability test from `_update_device_statuses`, lines 83-93: the
device id is looked up in the reachable set for its own type
(`adb.device_list()` serials for Android, `tidevice.Usbmux().devices()`
udids for iOS). -/
def device_reachable (d : DeviceInfo) (android_devices ios_devices : List String) : Bool :=
  match d.type with
  | .android => android_devices.contains d.id
  | .ios => ios_devices.contains d.id

/-- The per-device body of `DevicePool._update_device_statuses`,
lines 83-93. -/
def update_device_statuses_step (d : DeviceInfo) (android_devices ios_devices : List String)
    (max_reconnect_attempts : Nat) (reconnect_ok : Bool) (current_time : ℚ) : DeviceInfo :=
  if device_reachable d android_devices ios_devices then
    update_device_status d "connected" current_time
  else
    handle_disconnected_device d max_reconnect_attempts reconnect_ok current_time

/-- Embeds `DevicePool._update_device_statuses`, lines 67-93: one monitor cycle
applies the per-device step to every registered device. -/
def update_device_statuses (devices : DevicePoolMap) (android_devices ios_devices : List String)
    (max_reconnect_attempts : Nat) (reconnect_ok : String → Bool) (current_time : ℚ) :
    DevicePoolMap :=
  devices.map (fun p =>
    (p.1, update_device_statuses_step p.2 android_devices ios_devices
            max_reconnect_attempts (reconnect_ok p.1) current_time))

/-- One iteration of `DevicePool.wait_for_device`, lines 171-179,
at idealized integer times: argument `k` is the elapsed whole seconds
at the current loop-condition check, `fuel` the remaining whole seconds
before the deadline. Returns the result together with the number of
`get_device_info` reads and the number of one-second sleeps executed. -/
def wait_loop (get_info : Nat → Option DeviceInfo) (k : Nat) : Nat → Bool × Nat × Nat
  | 0 => (false, 0, 0)
  | fuel + 1 =>
    let connected :=
      match get_info k with
      | some d => d.status == "connected"
      | none => false
    if connected then (true, 1, 0)
    else
      let r := wait_loop get_info (k + 1) fuel
      (r.1, r.2.1 + 1, r.2.2 + 1)

/-- Embeds `DevicePool.wait_for_device`, lines 171-179: poll
`get_device_info` once per second until the device reports
`"connected"` or `timeout` seconds have elapsed. `get_info k` is the
registry's answer `k` seconds after the call started; the Python
`while time.time() - start_time < timeout` condition at elapsed time
`k` is `k < timeout`, so the loop body runs `max timeout 0` times at
most. -/
def wait_for_device (get_info : Nat → Option DeviceInfo) (timeout : Int) : Bool × Nat × Nat :=
  wait_loop get_info 0 timeout.toNat

/-! ## Advanced features (`advanced_features.py`)

Device handles are resolved in this module through
`self.device_pool.get_device(device_id)`. No method named `get_device`
exists in `device_pool.py` (only `get_device_info`), so handle
resolution is Modelled from the spec: the registry lookup "fails
gracefully (error, not dangling pointer) if the device was removed"
(spec section 3) and resolution yields a backend handle for registered
devices (spec section 6). Each embedded operation therefore takes an
`Option` device argument: `some` with the handle's behaviour oracles
when the device is registered, `none` otherwise, in which case the
`if not device: raise DeviceError(...)` branch fires. -/

/-- Embeds the dict returned by the backend's `device.get_metrics()`:
`cpu_usage`, `memory_usage` and `connection_strength` are read with
mandatory indexing, `battery_level` and `temperature` with `.get`
(hence optional); `throughput` and `error_rate` are read by the
profiler. -/
structure Metrics where
  cpu_usage : ℚ
  memory_usage : ℚ
  battery_level : Option ℚ
  temperature : Option ℚ
  connection_strength : ℚ
  throughput : ℚ
  error_rate : ℚ
deriving Repr, DecidableEq

/-- Embeds the `DeviceHealth` dataclass, lines 23-33, with its field
defaults. -/
structure DeviceHealth where
  device_id : String
  cpu_usage : ℚ
  memory_usage : ℚ
  battery_level : Option ℚ
  temperature : Option ℚ
  connection_strength : ℚ
  last_error : Option String := none
  status : String := "healthy"
deriving Repr, DecidableEq

/-- Embeds the threshold test of `check_device_health`, lines 128-134:
`any(getattr(health, metric) > threshold for metric, threshold in
self.alert_thresholds.items() if getattr(health, metric) is not None)`
with the table of lines 103-109. Note the comparison is the same `>`
for every entry of the table, including `battery_level` (15) and
`connection_strength` (30). -/
def exceeds_alert_threshold (health : DeviceHealth) : Bool :=
  decide (90 < health.cpu_usage) ||
  decide (90 < health.memory_usage) ||
  (match health.battery_level with
   | some b => decide (15 < b)
   | none => false) ||
  (match health.temperature with
   | some t => decide (45 < t)
   | none => false) ||
  decide (30 < health.connection_strength)

/-- Embeds the snapshot construction of `check_device_health`,
lines 119-126. -/
def build_health (device_id : String) (m : Metrics) : DeviceHealth :=
  { device_id := device_id
    cpu_usage := m.cpu_usage
    memory_usage := m.memory_usage
    battery_level := m.battery_level
    temperature := m.temperature
    connection_strength := m.connection_strength }

/-- Embeds lines 119-134 of `check_device_health`: build the snapshot,
then overwrite `status` with `"warning"` when the threshold test fires. -/
def classify_health (device_id : String) (m : Metrics) : DeviceHealth :=
  let health := build_health device_id m
  if exceeds_alert_threshold health then { health with status := "warning" } else health

/-- Embeds the failure snapshot of `check_device_health`, lines 141-150. -/
def error_health (device_id : String) (e : String) : DeviceHealth :=
  { device_id := device_id
    cpu_usage := 0
    memory_usage := 0
    battery_level := none
    temperature := none
    connection_strength := 0
    last_error := some e
    status := "error" }

/-- Embeds `HealthMonitor._update_health_history`, lines 152-158, acting
on one device's history list: append, then keep the last 100 records
via `self.health_history[device_id][-100:]`. -/
def update_health_history (history : List DeviceHealth) (health : DeviceHealth) :
    List DeviceHealth :=
  lastN (history ++ [health]) 100

/-- Embeds `HealthMonitor.check_device_health`, lines 111-150.
`read_metrics` is the outcome of `await device.get_metrics()` (the
exception message when it raises). The `raise DeviceError` for an
unresolved device (lines 114-115) sits outside the `try`, so it
propagates (outer `Except.error`); inside the `try`, a failed read is
converted to the error snapshot and returned (lines 139-150) — note
that this return path does not call `_update_health_history`, so the
history argument comes back unchanged there. -/
def check_device_health (device : Option Unit) (device_id : String)
    (read_metrics : Except String Metrics) (history : List DeviceHealth) :
    Except String (DeviceHealth × List DeviceHealth) :=
  match device with
  | none => .error ("Device " ++ device_id ++ " not found")
  | some _ =>
    match read_metrics with
    | .ok m =>
      let health := classify_health device_id m
      .ok (health, update_health_history history health)
    | .error e => .ok (error_health device_id e, history)

/-- Behaviour oracles of the backend handle used by
`AutoRecovery._attempt_recovery`: each recovery action either returns
or raises with a message. -/
structure RecoveryActions where
  restart_apps : Except String Unit
  reconnect : Except String Unit
  reboot : Except String Unit

/-- Embeds `AutoRecovery._attempt_recovery`, lines 189-202: three
independent `if`s run in sequence, each awaiting one backend action; an
exception aborts the rest. On success the returned list records which
actions fired, in order. -/
def attempt_recovery (device : Option RecoveryActions) (health : DeviceHealth) :
    Except String (List String) :=
  match device with
  | none => .error ("Device " ++ health.device_id ++ " not found")
  | some d =>
    (if decide (90 < health.cpu_usage) || decide (90 < health.memory_usage) then
       d.restart_apps.map (fun _ => ["restart_apps"])
     else .ok []).bind fun l₁ =>
    (if decide (health.connection_strength < 30) then
       d.reconnect.map (fun _ => ["reconnect"])
     else .ok []).bind fun l₂ =>
    (if health.status == "error" then
       d.reboot.map (fun _ => ["reboot"])
     else .ok []).bind fun l₃ =>
    .ok (l₁ ++ l₂ ++ l₃)

/-- Embeds `AutoRecovery.check_and_recover`, lines 169-187, for one
device: takes the device's current `recovery_attempts` counter
(`self.recovery_attempts.get(device_id, 0)`) and returns the result
together with the new counter value. The increment at line 183 sits
after the awaited `_attempt_recovery` call inside the `try`, so when an
action raises, control jumps to the `except` and the increment never
runs. -/
def check_and_recover (device : Option RecoveryActions) (device_id : String)
    (read_metrics : Except String Metrics) (history : List DeviceHealth)
    (recovery_attempts max_attempts : Nat) : Except String (Bool × Nat) :=
  match check_device_health (device.map fun _ => ()) device_id read_metrics history with
  | .error e => .error e
  | .ok (health, _) =>
    if health.status == "healthy" then .ok (true, 0)
    else if max_attempts ≤ recovery_attempts then .ok (false, recovery_attempts)
    else
      match attempt_recovery device health with
      | .ok _ => .ok (true, recovery_attempts + 1)
      | .error _ => .ok (false, recovery_attempts)

/-- Result-map entries of `execute_batch`: `{"status": "success",
"result": r}` or `{"status": "error", "error": msg}`. -/
inductive BatchResult where
  | success (result : String)
  | error (message : String)
deriving Repr, DecidableEq

/-- Embeds `BatchOperationManager._execute_single_operation`,
lines 85-95: resolve the device (raising `DeviceError` when absent —
`registered` is the list of ids known to the registry), then run
`getattr(device, operation)(**params)` whose outcome is the oracle
`run_op`; an exception there is re-raised as `OperationError` with the
wrapped message. -/
def execute_single_operation (registered : List String) (operation : String)
    (run_op : String → Except String String) (device_id : String) : Except String String :=
  if registered.contains device_id then
    match run_op device_id with
    | .ok r => .ok r
    | .error e => .error ("Operation " ++ operation ++ " failed: " ++ e)
  else .error ("Device " ++ device_id ++ " not found")

/-- Entry recorded for one device by `execute_batch`, lines 76-81: the
future's value on success, `{"status": "error", "error": str(e)}` when
`future.result()` re-raises. -/
def batch_entry (registered : List String) (operation : String)
    (run_op : String → Except String String) (device_id : String) : BatchResult :=
  match execute_single_operation registered operation run_op device_id with
  | .ok r => .success r
  | .error e => .error e

/-- Embeds `BatchOperationManager.execute_batch`, lines 59-83: when
`devices` is `None` it targets every registered id (the
`self.device_pool.list_devices()` call — absent from `device_pool.py`,
Modelled from the spec: "targets every device currently known to the
registry", spec section 4.5), then fills the `results` dict with one
entry per dispatched device id. -/
def execute_batch (registered : List String) (operation : String)
    (run_op : String → Except String String) (devices : Option (List String)) :
    List (String × BatchResult) :=
  let devs := devices.getD registered
  devs.foldl (fun results device_id =>
    dictInsert results device_id (batch_entry registered operation run_op device_id)) []

/-- Embeds the `PerformanceMetrics` dataclass, lines 35-42. -/
structure PerformanceMetrics where
  device_id : String
  response_time : ℚ
  throughput : ℚ
  error_rate : ℚ
  timestamp : ℚ
deriving Repr, DecidableEq

/-- Embeds `PerformanceProfiler._update_metrics_history`, lines 255-261,
acting on one device's history list: append, then keep the last 1000
records via `self.metrics_history[device_id][-1000:]`. -/
def update_metrics_history (history : List PerformanceMetrics) (metrics : PerformanceMetrics) :
    List PerformanceMetrics :=
  lastN (history ++ [metrics]) 1000

/-- Embeds `PerformanceProfiler._collect_metrics`, lines 228-253:
`ping` is the outcome of `await device.ping()`, `read_metrics` of
`await device.get_metrics()`, `response_time` the measured round-trip
and `now` the sample's wall-clock timestamp. Any exception in the `try`
yields the worst-case sample `(0, 0, 1.0)`. -/
def collect_metrics (device_id : String) (ping : Except String Unit)
    (read_metrics : Except String Metrics) (response_time now : ℚ) : PerformanceMetrics :=
  match ping, read_metrics with
  | .ok _, .ok m =>
    { device_id := device_id
      response_time := response_time
      throughput := m.throughput
      error_rate := m.error_rate
      timestamp := now }
  | _, _ =>
    { device_id := device_id
      response_time := 0
      throughput := 0
      error_rate := 1
      timestamp := now }

/-- Embeds `PerformanceProfiler.start_profiling`, lines 211-226. The
loop `while time.time() - start_time < duration` is not entered when
`duration ≤ 0` (elapsed time starts at 0), and otherwise its body ends
in `await asyncio.sleep(1)` — but `advanced_features.py` never imports
`asyncio` (its imports are lines 12-19), so evaluating the name raises
`NameError` on the first iteration, after exactly one sample (`sample`,
the value `_collect_metrics` produces at the start of the call) has
been appended to `metrics_list` and recorded in the history. The
`NameError` propagates to the caller. Returns the call's outcome
together with the device's metrics history after the call. -/
def start_profiling (device : Option Unit) (device_id : String) (duration : Int)
    (sample : PerformanceMetrics) (history : List PerformanceMetrics) :
    Except String (List PerformanceMetrics) × List PerformanceMetrics :=
  match device with
  | none => (.error ("Device " ++ device_id ++ " not found"), history)
  | some _ =>
    if duration ≤ 0 then (.ok [], history)
    else (.error "NameError: name asyncio is not defined",
          update_metrics_history history sample)

/-- Embeds the `DeviceProfile` dataclass, lines 44-50. Setting values
(`Union[str, int, float, bool]`) are modelled as strings: nothing in
`apply_profile` inspects them. -/
structure DeviceProfile where
  name : String
  settings : List (String × String)
  compatibility : List String
  performance_targets : List (String × ℚ)
deriving Repr, DecidableEq

/-- Error kinds raised by `apply_profile`: `ValueError` for an unknown
profile name (line 284), `DeviceError` for an unresolved device
(line 288), `ValueError` for an incompatible model (line 294). The
constructors keep the distinguishing message contents. -/
inductive ApplyProfileError where
  | profileNotFound (profile_name : String)
  | deviceNotFound (device_id : String)
  | profileIncompatible (profile_name device_id : String)
deriving Repr, DecidableEq

/-- Embeds the setting loop of `apply_profile`, lines 296-302: apply
each setting in order through `setattr`; the first raising `setattr`
stops the loop and turns the result into `false`. The oracle `set_ok`
says whether `setattr(device, s, v)` succeeds. Returns the boolean
result together with the list of settings actually applied to the
device, in order. -/
def apply_settings (set_ok : String → Bool) :
    List (String × String) → Bool × List (String × String)
  | [] => (true, [])
  | (s, v) :: rest =>
    if set_ok s then
      let r := apply_settings set_ok rest
      (r.1, (s, v) :: r.2)
    else (false, [])

/-- Embeds `ProfileManager.apply_profile`, lines 281-302: check the
profile name, resolve the device (its model is `device_model` when
registered), check `device.model not in profile.compatibility`
(an exact membership test), then run the setting loop. The second
component is the list of settings applied to the device during the
call. -/
def apply_profile (profiles : List (String × DeviceProfile)) (device_model : Option String)
    (set_ok : String → Bool) (device_id profile_name : String) :
    Except ApplyProfileError Bool × List (String × String) :=
  match dictLookup profiles profile_name with
  | none => (.error (.profileNotFound profile_name), [])
  | some profile =>
    match device_model with
    | none => (.error (.deviceNotFound device_id), [])
    | some model =>
      if profile.compatibility.contains model then
        let r := apply_settings set_ok profile.settings
        (.ok r.1, r.2)
      else
        (.error (.profileIncompatible profile_name device_id), [])

/-- The health snapshot `check_and_recover` observes for a registered
device (derived view of `check_device_health`, which never raises
there): the classified snapshot on a successful metrics read, the error
snapshot on a failed one. -/
def observed_health (device_id : String) (read_metrics : Except String Metrics) : DeviceHealth :=
  match read_metrics with
  | .ok m => classify_health device_id m
  | .error e => error_health device_id e

/-- Spec-side list of the recovery actions matching a snapshot,
following the claim wording: restart applications when cpuUsage > 90 or
memoryUsage > 90, reconnect when connectionStrength < 30, reboot when
status is Error — independent checks, several may fire in one pass. To
be compared with what `attempt_recovery` fires. -/
def spec_matching_actions (health : DeviceHealth) : List String :=
  (if 90 < health.cpu_usage ∨ 90 < health.memory_usage then ["restart_apps"] else []) ++
  (if health.connection_strength < 30 then ["reconnect"] else []) ++
  (if health.status = "error" then ["reboot"] else [])

/-! ## Helper lemmas -/

theorem dictLookup_dictInsert {β : Type} (m : List (String × β)) (k k' : String) (v : β) :
    dictLookup (dictInsert m k v) k' = if k = k' then some v else dictLookup m k' := by
  induction m with
  | nil => by_cases h : k = k' <;> simp [dictInsert, dictLookup, h]
  | cons p rest ih =>
    obtain ⟨k₀, v₀⟩ := p
    by_cases h0 : k₀ = k
    · subst h0
      by_cases h1 : k₀ = k' <;> simp [dictInsert, dictLookup, h1]
    · by_cases h1 : k₀ = k'
      · subst h1
        have hkk : ¬ k = k₀ := fun h => h0 h.symm
        simp [dictInsert, dictLookup, h0, hkk]
      · simp [dictInsert, dictLookup, h0, h1, ih]

theorem keys_dictInsert {β : Type} (m : List (String × β)) (k : String) (v : β) :
    (dictInsert m k v).map Prod.fst =
      if k ∈ m.map Prod.fst then m.map Prod.fst else m.map Prod.fst ++ [k] := by
  induction m with
  | nil => simp [dictInsert]
  | cons p rest ih =>
    obtain ⟨k₀, v₀⟩ := p
    by_cases h0 : k₀ = k
    · subst h0; simp [dictInsert]
    · have hne : ¬ k = k₀ := fun h => h0 h.symm
      by_cases hk : k ∈ rest.map Prod.fst <;>
        simp [dictInsert, h0, ih, hne, hk]

theorem lastN_eq_rtake {α : Type} (l : List α) (n : Nat) :
    lastN l n = l.rtake n := rfl

theorem lastN_eq_reverse_take {α : Type} (l : List α) (n : Nat) :
    lastN l n = (l.reverse.take n).reverse := by
  rw [lastN_eq_rtake, List.rtake_eq_reverse_take_reverse]

theorem lastN_length {α : Type} (l : List α) (n : Nat) :
    (lastN l n).length = min l.length n := by
  unfold lastN
  simp [List.length_drop]
  omega

/-- Appending then truncating to the last `n` is insensitive to elements
already truncated away: the slide of the bounded-history window. -/
theorem lastN_lastN_append {α : Type} (l t : List α) (n : Nat) :
    lastN (lastN l n ++ t) n = lastN (l ++ t) n := by
  rw [lastN_eq_reverse_take, lastN_eq_reverse_take, lastN_eq_reverse_take]
  rw [List.reverse_append, List.reverse_append, List.reverse_reverse]
  rw [List.take_append_eq_append_take, List.take_append_eq_append_take]
  rw [List.take_take]
  rw [Nat.min_eq_left (Nat.sub_le _ _)]

theorem dictLookup_eq_none_iff {β : Type} (m : List (String × β)) (k : String) :
    dictLookup m k = none ↔ k ∉ m.map Prod.fst := by
  induction m with
  | nil => simp [dictLookup]
  | cons p rest ih =>
    obtain ⟨k₀, v₀⟩ := p
    by_cases h : k₀ = k
    · subst h; simp [dictLookup]
    · rw [List.map_cons, List.mem_cons]
      simp only [dictLookup, h, if_false]
      rw [ih]
      constructor
      · rintro hn (hc | hc)
        · exact h hc.symm
        · exact hn hc
      · exact fun hn hc => hn (Or.inr hc)

theorem dictLookup_map_entry {β γ : Type} (f : String → β → γ) (m : List (String × β))
    (k : String) :
    dictLookup (m.map fun p => (p.1, f p.1 p.2)) k = (dictLookup m k).map (f k) := by
  induction m with
  | nil => rfl
  | cons p rest ih =>
    obtain ⟨k₀, v₀⟩ := p
    by_cases h : k₀ = k
    · subst h; simp [dictLookup]
    · simp [dictLookup, h, ih]

theorem nodup_keys_dictInsert {β : Type} (m : List (String × β)) (k : String) (v : β)
    (h : (m.map Prod.fst).Nodup) : ((dictInsert m k v).map Prod.fst).Nodup := by
  rw [keys_dictInsert]
  by_cases hk : k ∈ m.map Prod.fst
  · simpa [hk] using h
  · simp only [hk, if_false]
    refine List.Nodup.append h (List.nodup_singleton k) ?_
    intro a ha hb
    rw [List.mem_singleton] at hb
    subst hb
    exact hk ha

theorem dictLookup_foldl_dictInsert {β : Type} (f : String → β) (devs : List String)
    (acc : List (String × β)) (k : String) :
    dictLookup (devs.foldl (fun m device_id => dictInsert m device_id (f device_id)) acc) k =
      if k ∈ devs then some (f k) else dictLookup acc k := by
  induction devs generalizing acc with
  | nil => simp
  | cons d ds ih =>
    simp only [List.foldl_cons]
    rw [ih]
    by_cases h : k ∈ ds
    · simp [h]
    · rw [dictLookup_dictInsert]
      by_cases h2 : d = k
      · subst h2; simp [h]
      · have h2' : ¬ k = d := fun hk => h2 hk.symm
        simp [h, h2, h2']

theorem nodup_keys_foldl_dictInsert {β : Type} (f : String → β) (devs : List String)
    (acc : List (String × β)) (h : (acc.map Prod.fst).Nodup) :
    (((devs.foldl (fun m device_id => dictInsert m device_id (f device_id)) acc)).map
      Prod.fst).Nodup := by
  induction devs generalizing acc with
  | nil => simpa using h
  | cons d ds ih =>
    simp only [List.foldl_cons]
    exact ih _ (nodup_keys_dictInsert _ _ _ h)

theorem foldl_lastN_append {α : Type} (cap : Nat) (xs acc : List α) :
    xs.foldl (fun h x => lastN (h ++ [x]) cap) (lastN acc cap) = lastN (acc ++ xs) cap := by
  induction xs generalizing acc with
  | nil => simp
  | cons x xs ih =>
    simp only [List.foldl_cons]
    rw [lastN_lastN_append]
    have h := ih (acc ++ [x])
    rw [List.append_assoc, List.singleton_append] at h
    exact h

theorem apply_settings_all_ok (set_ok : String → Bool) (settings : List (String × String))
    (h : ∀ sv ∈ settings, set_ok sv.1 = true) :
    apply_settings set_ok settings = (true, settings) := by
  induction settings with
  | nil => rfl
  | cons sv rest ih =>
    obtain ⟨s, v⟩ := sv
    have hs : set_ok s = true := h (s, v) (List.mem_cons_self _ _)
    have hr := ih (fun x hx => h x (List.mem_cons_of_mem _ hx))
    simp [apply_settings, hs, hr]

theorem apply_settings_with_failure (set_ok : String → Bool) (settings : List (String × String))
    (h : ∃ sv ∈ settings, set_ok sv.1 = false) :
    apply_settings set_ok settings =
      (false, settings.takeWhile (fun sv => set_ok sv.1)) := by
  induction settings with
  | nil => simp at h
  | cons sv rest ih =>
    obtain ⟨s, v⟩ := sv
    by_cases hs : set_ok s = true
    · have hr : ∃ x ∈ rest, set_ok x.1 = false := by
        obtain ⟨x, hx, hfx⟩ := h
        rcases List.mem_cons.mp hx with h1 | h1
        · subst h1; simp [hs] at hfx
        · exact ⟨x, h1, hfx⟩
      simp [apply_settings, hs, ih hr, List.takeWhile]
    · have hs' : set_ok s = false := by
        cases hval : set_ok s
        · rfl
        · exact absurd hval hs
      simp [apply_settings, hs', List.takeWhile]

theorem attempt_recovery_ok_actions (d : RecoveryActions) (health : DeviceHealth)
    (l : List String) (h : attempt_recovery (some d) health = Except.ok l) :
    l = spec_matching_actions health := by
  unfold attempt_recovery at h
  unfold spec_matching_actions
  obtain ⟨ra, rc, rb⟩ := d
  cases hb1 : (decide (90 < health.cpu_usage) || decide (90 < health.memory_usage)) <;>
    cases hb2 : decide (health.connection_strength < 30) <;>
    cases hb3 : (health.status == "error") <;>
    cases ra <;> cases rc <;> cases rb <;>
    · simp only [hb1, hb2, hb3] at h
      simp only [Bool.or_eq_true, Bool.or_eq_false_iff, decide_eq_true_eq,
        decide_eq_false_iff_not, beq_iff_eq, beq_eq_false_iff_ne] at hb1 hb2 hb3
      first
      | (simp [Except.bind, Except.map] at h
         simp [hb1, hb2, hb3, h, hb1.1, hb1.2])
      | (simp [Except.bind, Except.map] at h
         simp [hb1, hb2, hb3, h])
      | simp [Except.bind, Except.map] at h

/-! ## Claim theorems -/

/-- C1: evaluation of the embedded health classifier at the inputs
where the code diverges from the claimed threshold directions. The
claim (and the spec) makes `batteryLevel < 15` and
`connectionStrength < 30` floors, but the code compares every metric of
its `alert_thresholds` table with the same `>`; so (i) a weak
connection (20) with all other metrics nominal is classified
`"healthy"` where the claim requires Warning, (ii) a strong connection
(80) alone is classified `"warning"` where the claim requires Healthy,
(iii) a low battery (10) does not trigger Warning, and (iv) the
`test_health_monitoring` fixture metrics (cpu 50, mem 60, battery 80,
temp 35, conn 90), asserted `"healthy"` by the repository's own test,
are classified `"warning"`. -/
theorem classify_health_threshold_direction_bug :
    (classify_health "d1"
      { cpu_usage := 50, memory_usage := 50, battery_level := none, temperature := none,
        connection_strength := 20, throughput := 0, error_rate := 0 }).status = "healthy" ∧
    (classify_health "d1"
      { cpu_usage := 50, memory_usage := 50, battery_level := none, temperature := none,
        connection_strength := 80, throughput := 0, error_rate := 0 }).status = "warning" ∧
    (classify_health "d1"
      { cpu_usage := 50, memory_usage := 50, battery_level := some 10, temperature := none,
        connection_strength := 20, throughput := 0, error_rate := 0 }).status = "healthy" ∧
    (classify_health "d1"
      { cpu_usage := 50, memory_usage := 60, battery_level := some 80, temperature := some 35,
        connection_strength := 90, throughput := 100, error_rate := 1/100 }).status
      = "warning" := by
  refine ⟨?_, ?_, ?_, ?_⟩ <;> decide

/-- C2 counterexample: at a failed metrics read (message `"boom"`) with
empty prior history, `check_device_health` returns the Error snapshot
but leaves the history empty — it does not append the Error snapshot to
the device's health history, contrary to the claim (the failure return
path at lines 139-150 never calls `_update_health_history`). -/
theorem check_device_health_error_history_cex :
    check_device_health (some ()) "d1" (Except.error "boom") [] =
      Except.ok (error_health "d1" "boom", ([] : List DeviceHealth)) ∧
    ¬ check_device_health (some ()) "d1" (Except.error "boom") [] =
      Except.ok (error_health "d1" "boom",
        update_health_history [] (error_health "d1" "boom")) := by
  constructor
  · rfl
  · intro h
    simp [check_device_health, update_health_history, lastN] at h

/-- C2 amended: for every registered device whose metrics read fails
with message `e` (non-empty), `check_device_health` does not raise: it
returns a snapshot with status `"error"`, `cpu_usage = 0`,
`memory_usage = 0`, `connection_strength = 0` and `last_error = some e`,
but the device's health history comes back UNCHANGED — the Error
snapshot is not appended to it. -/
theorem check_device_health_error_spec (device_id e : String) (history : List DeviceHealth)
    (he : e ≠ "") :
    check_device_health (some ()) device_id (Except.error e) history =
      Except.ok (error_health device_id e, history) ∧
    (error_health device_id e).status = "error" ∧
    (error_health device_id e).cpu_usage = 0 ∧
    (error_health device_id e).memory_usage = 0 ∧
    (error_health device_id e).connection_strength = 0 ∧
    (error_health device_id e).last_error = some e ∧
    e ≠ "" :=
  ⟨rfl, rfl, rfl, rfl, rfl, rfl, he⟩

/-- Witness for the C2 amended theorem at a concrete failed read. -/
theorem check_device_health_error_spec_witness :
    check_device_health (some ()) "d7" (Except.error "read timed out")
        [error_health "d7" "old"] =
      Except.ok (error_health "d7" "read timed out", [error_health "d7" "old"]) ∧
    (error_health "d7" "read timed out").status = "error" ∧
    (error_health "d7" "read timed out").cpu_usage = 0 ∧
    (error_health "d7" "read timed out").memory_usage = 0 ∧
    (error_health "d7" "read timed out").connection_strength = 0 ∧
    (error_health "d7" "read timed out").last_error = some "read timed out" ∧
    "read timed out" ≠ "" :=
  check_device_health_error_spec "d7" "read timed out" [error_health "d7" "old"] (by decide)

/-- C6: starting from an empty history, any sequence of appends through
`_update_health_history` leaves exactly the last 100 snapshots, in
order (so the length is `min n 100`, never exceeding 100); likewise
`_update_metrics_history` leaves exactly the last 1000 samples; and a
single append from an arbitrary history never leaves more than the cap
either. -/
theorem bounded_history_caps (snapshots : List DeviceHealth)
    (samples : List PerformanceMetrics) :
    snapshots.foldl update_health_history [] = lastN snapshots 100 ∧
    (snapshots.foldl update_health_history []).length = min snapshots.length 100 ∧
    samples.foldl update_metrics_history [] = lastN samples 1000 ∧
    (samples.foldl update_metrics_history []).length = min samples.length 1000 ∧
    (∀ (h : List DeviceHealth) (x : DeviceHealth),
      (update_health_history h x).length ≤ 100) ∧
    (∀ (h : List PerformanceMetrics) (x : PerformanceMetrics),
      (update_metrics_history h x).length ≤ 1000) := by
  have h100 : snapshots.foldl update_health_history [] = lastN snapshots 100 := by
    have h := foldl_lastN_append 100 snapshots []
    rw [List.nil_append] at h
    exact h
  have h1000 : samples.foldl update_metrics_history [] = lastN samples 1000 := by
    have h := foldl_lastN_append 1000 samples []
    rw [List.nil_append] at h
    exact h
  refine ⟨h100, ?_, h1000, ?_, ?_, ?_⟩
  · rw [h100, lastN_length]
  · rw [h1000, lastN_length]
  · intro h x
    rw [update_health_history, lastN_length]
    simp
  · intro h x
    rw [update_metrics_history, lastN_length]
    simp

/-- C8: evaluation of the embedded `start_profiling` at a registered
device and positive duration (5 s): the loop body's trailing
`await asyncio.sleep(1)` raises `NameError` (the module never imports
`asyncio`), so the call aborts after appending exactly one sample to
the history and never returns the claimed per-second sample list; a
non-positive duration skips the loop and returns an empty list. -/
theorem start_profiling_missing_asyncio_bug :
    start_profiling (some ()) "d1" 5
      { device_id := "d1", response_time := 1/10, throughput := 100, error_rate := 1/100,
        timestamp := 0 } [] =
      (Except.error "NameError: name asyncio is not defined",
       [{ device_id := "d1", response_time := 1/10, throughput := 100, error_rate := 1/100,
          timestamp := 0 }]) ∧
    start_profiling (some ()) "d1" 0
      { device_id := "d1", response_time := 1/10, throughput := 100, error_rate := 1/100,
        timestamp := 0 } [] = (Except.ok [], []) := by
  constructor
  · rfl
  · rfl

/-- C9: adding an absent id inserts a record with the given
type/name/version, status `"disconnected"`, `last_seen = 0` and
`reconnect_attempts = 0` and returns `true`, after which
`get_device_info` on that id returns exactly that record; adding a
present id returns `false` and leaves the registry (hence the existing
record) unchanged. -/
theorem add_device_spec (devices : DevicePoolMap) (device_id : String)
    (device_type : DeviceType) (name version : String) :
    (get_device_info devices device_id = none →
      (add_device devices device_id device_type name version).2 = true ∧
      get_device_info (add_device devices device_id device_type name version).1 device_id =
        some { id := device_id, type := device_type, name := name, version := version,
               status := "disconnected", last_seen := 0, reconnect_attempts := 0 }) ∧
    (∀ d, get_device_info devices device_id = some d →
      add_device devices device_id device_type name version = (devices, false)) := by
  constructor
  · intro h
    rw [get_device_info] at h
    refine ⟨by simp [add_device, h], ?_⟩
    rw [add_device, h, get_device_info, dictLookup_dictInsert]
    simp
  · intro d h
    rw [get_device_info] at h
    rw [add_device, h]

/-- Witness for C9 at a concrete pool: a fresh insert into a pool that
already holds another device, then a duplicate insert of an existing
id. -/
theorem add_device_spec_witness :
    ((add_device [("d0", { id := "d0", type := DeviceType.ios, name := "iPhone", version := "15.0" })] "d1" DeviceType.android "Pixel" "12.0").2 = true ∧
      get_device_info (add_device [("d0", { id := "d0", type := DeviceType.ios, name := "iPhone", version := "15.0" })] "d1" DeviceType.android "Pixel" "12.0").1 "d1" =
        some { id := "d1", type := DeviceType.android, name := "Pixel", version := "12.0",
               status := "disconnected", last_seen := 0, reconnect_attempts := 0 }) ∧
    add_device [("d0", { id := "d0", type := DeviceType.ios, name := "iPhone", version := "15.0" })] "d0" DeviceType.android "Pixel" "12.0" =
      ([("d0", { id := "d0", type := DeviceType.ios, name := "iPhone", version := "15.0" })], false) :=
  ⟨(add_device_spec _ "d1" DeviceType.android "Pixel" "12.0").1 rfl,
   (add_device_spec _ "d0" DeviceType.android "Pixel" "12.0").2
     { id := "d0", type := DeviceType.ios, name := "iPhone", version := "15.0" } rfl⟩

/-- C10: `wait_for_device` with a non-positive timeout returns `false`
immediately — whatever the registry would answer at any time (zero
status reads, zero sleeps) — because the `while` condition fails before
the first status read; with a positive timeout the status is read
before the first one-second sleep, so a device already `"connected"` at
the first read yields `true` after exactly one read and zero sleeps. -/
theorem wait_for_device_timeout_spec (get_info : Nat → Option DeviceInfo) (timeout : Int) :
    (timeout ≤ 0 → wait_for_device get_info timeout = (false, 0, 0)) ∧
    (0 < timeout → ∀ d, get_info 0 = some d → d.status = "connected" →
      wait_for_device get_info timeout = (true, 1, 0)) := by
  constructor
  · intro h
    have ht : timeout.toNat = 0 := by omega
    rw [wait_for_device, ht]
    rfl
  · intro h d hd hst
    have ht : timeout.toNat = (timeout.toNat - 1) + 1 := by omega
    rw [wait_for_device, ht, wait_loop]
    simp [hd, hst]

/-- Witness for C10: a registry that reports a registered, connected
device at every instant still yields `false` with no reads for
timeout `-5` (and for timeout `0`), and yields `true` after one read
and no sleep for timeout `30`. -/
theorem wait_for_device_timeout_witness :
    wait_for_device (fun _ => some { id := "d1", type := DeviceType.android, name := "Pixel",
                                     version := "12.0", status := "connected" }) (-5) =
      (false, 0, 0) ∧
    wait_for_device (fun _ => some { id := "d1", type := DeviceType.android, name := "Pixel",
                                     version := "12.0", status := "connected" }) 0 =
      (false, 0, 0) ∧
    wait_for_device (fun _ => some { id := "d1", type := DeviceType.android, name := "Pixel",
                                     version := "12.0", status := "connected" }) 30 =
      (true, 1, 0) :=
  ⟨(wait_for_device_timeout_spec _ (-5)).1 (by decide),
   (wait_for_device_timeout_spec _ 0).1 (by decide),
   (wait_for_device_timeout_spec _ 30).2 (by decide) _ rfl rfl⟩

/-- C3 counterexample: unhealthy check (cpu 95), zero prior attempts,
`restart_apps` raises. The code returns `(false, 0)`: the recovery
attempt is NOT counted, because the `recovery_attempts` increment sits
after the raising `_attempt_recovery` call inside the `try`; the claim
requires the counter to come back incremented (`0 + 1`). -/
theorem check_and_recover_lost_attempt_cex :
    check_and_recover
        (some { restart_apps := Except.error "restart failed", reconnect := Except.ok (),
                reboot := Except.ok () })
        "d1"
        (Except.ok { cpu_usage := 95, memory_usage := 50, battery_level := none,
                     temperature := none, connection_strength := 80, throughput := 0,
                     error_rate := 0 })
        [] 0 3 =
      Except.ok (false, 0) ∧
    (Except.ok (false, 0) : Except String (Bool × Nat)) ≠ Except.ok (false, 0 + 1) := by
  constructor
  · rfl
  · intro h
    simp at h

/-- C3 amended: for every registered device, `check_and_recover`
returns `(true, 0)` when the observed snapshot is Healthy (counter
reset); returns `(false, attempts)` untouched when the counter has
reached `max_attempts`; otherwise fires exactly the matching recovery
actions (restart applications when cpuUsage > 90 or memoryUsage > 90,
reconnect when connectionStrength < 30, reboot when status is Error —
independent checks) and returns `(true, attempts + 1)` when no action
raised; when an action raises it returns `false` with the counter
UNCHANGED — the failed attempt is not counted. -/
theorem check_and_recover_spec (d : RecoveryActions) (device_id : String)
    (read_metrics : Except String Metrics) (history : List DeviceHealth)
    (recovery_attempts max_attempts : Nat) :
    ((observed_health device_id read_metrics).status = "healthy" →
      check_and_recover (some d) device_id read_metrics history recovery_attempts
          max_attempts =
        Except.ok (true, 0)) ∧
    ((observed_health device_id read_metrics).status ≠ "healthy" →
      max_attempts ≤ recovery_attempts →
      check_and_recover (some d) device_id read_metrics history recovery_attempts
          max_attempts =
        Except.ok (false, recovery_attempts)) ∧
    ((observed_health device_id read_metrics).status ≠ "healthy" →
      recovery_attempts < max_attempts →
      (∀ l, attempt_recovery (some d) (observed_health device_id read_metrics) =
          Except.ok l →
        check_and_recover (some d) device_id read_metrics history recovery_attempts
            max_attempts =
          Except.ok (true, recovery_attempts + 1) ∧
        l = spec_matching_actions (observed_health device_id read_metrics)) ∧
      (∀ err, attempt_recovery (some d) (observed_health device_id read_metrics) =
          Except.error err →
        check_and_recover (some d) device_id read_metrics history recovery_attempts
            max_attempts =
          Except.ok (false, recovery_attempts))) := by
  have hred : ∀ hist₂ : List DeviceHealth,
      check_device_health (some ()) device_id read_metrics hist₂ =
        Except.ok (observed_health device_id read_metrics,
          (check_device_health (some ()) device_id read_metrics hist₂).toOption.elim hist₂
            Prod.snd) := by
    intro hist₂
    cases read_metrics <;> rfl
  refine ⟨?_, ?_, ?_⟩
  · intro hst
    rw [check_and_recover]
    rw [show (some d).map (fun _ => ()) = some () from rfl, hred]
    simp [hst]
  · intro hst hmax
    rw [check_and_recover]
    rw [show (some d).map (fun _ => ()) = some () from rfl, hred]
    simp [beq_iff_eq, hst, hmax]
  · intro hst hlt
    have hnle : ¬ max_attempts ≤ recovery_attempts := by omega
    constructor
    · intro l hl
      refine ⟨?_, attempt_recovery_ok_actions d _ l hl⟩
      rw [check_and_recover]
      rw [show (some d).map (fun _ => ()) = some () from rfl, hred]
      simp [beq_iff_eq, hst, hnle, hl]
    · intro err herr
      rw [check_and_recover]
      rw [show (some d).map (fun _ => ()) = some () from rfl, hred]
      simp [beq_iff_eq, hst, hnle, herr]

/-- Witness for the C3 amended theorem: cpu 95 (Warning), counter 0 of
3, all actions succeed — the call returns `(true, 1)` and the fired
action list is exactly the matching one. -/
theorem check_and_recover_spec_witness :
    check_and_recover
        (some { restart_apps := Except.ok (), reconnect := Except.ok (),
                reboot := Except.ok () })
        "d1"
        (Except.ok { cpu_usage := 95, memory_usage := 50, battery_level := none,
                     temperature := none, connection_strength := 80, throughput := 0,
                     error_rate := 0 })
        [] 0 3 =
      Except.ok (true, 0 + 1) ∧
    ["restart_apps"] =
      spec_matching_actions (observed_health "d1"
        (Except.ok { cpu_usage := 95, memory_usage := 50, battery_level := none,
                     temperature := none, connection_strength := 80, throughput := 0,
                     error_rate := 0 })) :=
  ((check_and_recover_spec
      { restart_apps := Except.ok (), reconnect := Except.ok (), reboot := Except.ok () }
      "d1"
      (Except.ok { cpu_usage := 95, memory_usage := 50, battery_level := none,
                   temperature := none, connection_strength := 80, throughput := 0,
                   error_rate := 0 })
      [] 0 3).2.2 (by decide) (by decide)).1 ["restart_apps"] rfl

/-- C4: per monitor cycle, (i) a device whose id is in the reachable
set for its type — whatever its attempt counter, even at or above the
maximum — becomes `"connected"` with `last_seen` updated and
`reconnect_attempts` reset to 0; (ii) an unreachable device with
`reconnect_attempts < max` gets the counter incremented and a reconnect
attempted: on success it is immediately `"connected"` (counter reset by
that transition), on failure it stays `"disconnected"` with `last_seen`
updated to the cycle time; (iii) an unreachable device at the maximum
is left alone apart from the Connected→Disconnected normalization;
(iv) the counter never decreases except by reaching `"connected"`;
(v) every registered device is stepped on every cycle. -/
theorem connection_monitor_cycle_spec (d : DeviceInfo)
    (android_devices ios_devices : List String) (max_reconnect_attempts : Nat)
    (reconnect_ok : Bool) (ts : ℚ) :
    (device_reachable d android_devices ios_devices = true →
      update_device_statuses_step d android_devices ios_devices max_reconnect_attempts
          reconnect_ok ts =
        { d with status := "connected", last_seen := ts, reconnect_attempts := 0 }) ∧
    (device_reachable d android_devices ios_devices = false →
      d.reconnect_attempts < max_reconnect_attempts →
      (reconnect_ok = true →
        update_device_statuses_step d android_devices ios_devices max_reconnect_attempts
            reconnect_ok ts =
          { d with status := "connected", last_seen := ts, reconnect_attempts := 0 }) ∧
      (reconnect_ok = false →
        update_device_statuses_step d android_devices ios_devices max_reconnect_attempts
            reconnect_ok ts =
          { d with status := "disconnected", last_seen := ts,
                   reconnect_attempts := d.reconnect_attempts + 1 } ∨
        (d.status ≠ "connected" ∧
          update_device_statuses_step d android_devices ios_devices max_reconnect_attempts
              reconnect_ok ts =
            { d with last_seen := ts,
                     reconnect_attempts := d.reconnect_attempts + 1 }))) ∧
    (device_reachable d android_devices ios_devices = false →
      max_reconnect_attempts ≤ d.reconnect_attempts →
      update_device_statuses_step d android_devices ios_devices max_reconnect_attempts
          reconnect_ok ts =
        (if d.status = "connected" then { d with status := "disconnected" } else d)) ∧
    ((update_device_statuses_step d android_devices ios_devices max_reconnect_attempts
        reconnect_ok ts).status ≠ "connected" →
      d.reconnect_attempts ≤
        (update_device_statuses_step d android_devices ios_devices max_reconnect_attempts
          reconnect_ok ts).reconnect_attempts) ∧
    (∀ (pool : DevicePoolMap) (rok : String → Bool) (device_id : String),
      dictLookup (update_device_statuses pool android_devices ios_devices
          max_reconnect_attempts rok ts) device_id =
        (dictLookup pool device_id).map (fun dev =>
          update_device_statuses_step dev android_devices ios_devices
            max_reconnect_attempts (rok device_id) ts)) := by
  have h1 : device_reachable d android_devices ios_devices = true →
      update_device_statuses_step d android_devices ios_devices max_reconnect_attempts
          reconnect_ok ts =
        { d with status := "connected", last_seen := ts, reconnect_attempts := 0 } := by
    intro hr
    simp [update_device_statuses_step, hr, update_device_status]
  have h2t : device_reachable d android_devices ios_devices = false →
      d.reconnect_attempts < max_reconnect_attempts → reconnect_ok = true →
      update_device_statuses_step d android_devices ios_devices max_reconnect_attempts
          reconnect_ok ts =
        { d with status := "connected", last_seen := ts, reconnect_attempts := 0 } := by
    intro hr hlt hok
    subst hok
    by_cases hs : d.status = "connected" <;>
      simp [update_device_statuses_step, hr, handle_disconnected_device, hs, hlt,
        update_device_status]
  have h2f : device_reachable d android_devices ios_devices = false →
      d.reconnect_attempts < max_reconnect_attempts → reconnect_ok = false →
      update_device_statuses_step d android_devices ios_devices max_reconnect_attempts
          reconnect_ok ts =
        { d with status := "disconnected", last_seen := ts,
                 reconnect_attempts := d.reconnect_attempts + 1 } ∨
      (d.status ≠ "connected" ∧
        update_device_statuses_step d android_devices ios_devices max_reconnect_attempts
            reconnect_ok ts =
          { d with last_seen := ts, reconnect_attempts := d.reconnect_attempts + 1 }) := by
    intro hr hlt hok
    subst hok
    by_cases hs : d.status = "connected"
    · left
      simp [update_device_statuses_step, hr, handle_disconnected_device, hs, hlt]
    · right
      refine ⟨hs, ?_⟩
      simp [update_device_statuses_step, hr, handle_disconnected_device, hs, hlt]
  have h3 : device_reachable d android_devices ios_devices = false →
      max_reconnect_attempts ≤ d.reconnect_attempts →
      update_device_statuses_step d android_devices ios_devices max_reconnect_attempts
          reconnect_ok ts =
        (if d.status = "connected" then { d with status := "disconnected" } else d) := by
    intro hr hge
    have hnlt : ¬ d.reconnect_attempts < max_reconnect_attempts := by omega
    by_cases hs : d.status = "connected" <;>
      simp [update_device_statuses_step, hr, handle_disconnected_device, hs, hnlt]
  refine ⟨h1, fun hr hlt => ⟨h2t hr hlt, h2f hr hlt⟩, h3, ?_, ?_⟩
  · intro hne
    by_cases hr : device_reachable d android_devices ios_devices
    · rw [h1 hr] at hne
      simp at hne
    · have hr' : device_reachable d android_devices ios_devices = false := by
        revert hr
        cases device_reachable d android_devices ios_devices <;> simp
      by_cases hlt : d.reconnect_attempts < max_reconnect_attempts
      · by_cases hok : reconnect_ok = true
        · rw [h2t hr' hlt hok] at hne
          simp at hne
        · have hok' : reconnect_ok = false := by
            revert hok
            cases reconnect_ok <;> simp
          rcases h2f hr' hlt hok' with hcase | ⟨_, hcase⟩ <;> rw [hcase] <;> simp
      · have hge : max_reconnect_attempts ≤ d.reconnect_attempts := by omega
        rw [h3 hr' hge]
        by_cases hs : d.status = "connected" <;> simp [hs]
  · intro pool rok device_id
    exact dictLookup_map_entry
      (fun device_id dev => update_device_statuses_step dev android_devices ios_devices
        max_reconnect_attempts (rok device_id) ts) pool device_id

/-- Witness for C4: a maxed-out (5 failed attempts, max 3) Android
device whose id shows up in the reachable set again becomes
`"connected"` with the counter reset; the same device unreachable with
a failing reconnect at counter 1 of 3 stays `"disconnected"` with the
counter bumped and `last_seen` refreshed. -/
theorem connection_monitor_cycle_witness :
    update_device_statuses_step
        { id := "a1", type := DeviceType.android, name := "Pixel", version := "12.0",
          status := "disconnected", last_seen := 3, reconnect_attempts := 5 }
        ["a1"] [] 3 false 7 =
      { id := "a1", type := DeviceType.android, name := "Pixel", version := "12.0",
        status := "connected", last_seen := 7, reconnect_attempts := 0 } ∧
    (update_device_statuses_step
        { id := "a1", type := DeviceType.android, name := "Pixel", version := "12.0",
          status := "disconnected", last_seen := 3, reconnect_attempts := 1 }
        [] [] 3 false 7 =
      { id := "a1", type := DeviceType.android, name := "Pixel", version := "12.0",
        status := "disconnected", last_seen := 7, reconnect_attempts := 2 } ∨
    ("disconnected" : String) ≠ "connected" ∧
      update_device_statuses_step
          { id := "a1", type := DeviceType.android, name := "Pixel", version := "12.0",
            status := "disconnected", last_seen := 3, reconnect_attempts := 1 }
          [] [] 3 false 7 =
        { id := "a1", type := DeviceType.android, name := "Pixel", version := "12.0",
          status := "disconnected", last_seen := 7, reconnect_attempts := 2 }) :=
  ⟨(connection_monitor_cycle_spec
      { id := "a1", type := DeviceType.android, name := "Pixel", version := "12.0",
        status := "disconnected", last_seen := 3, reconnect_attempts := 5 }
      ["a1"] [] 3 false 7).1 rfl,
   ((connection_monitor_cycle_spec
      { id := "a1", type := DeviceType.android, name := "Pixel", version := "12.0",
        status := "disconnected", last_seen := 3, reconnect_attempts := 1 }
      [] [] 3 false 7).2.1 rfl (by decide)).2 rfl⟩

/-- C5: `execute_batch` over a requested id list produces a result map
whose lookup answers exactly the requested ids (and nothing else), with
exactly one key occurrence per requested id; omitting the list targets
every registered id; a requested id unknown to the registry gets an
error entry whose message says the device was not found; a registered
device's entry is success or error according to its own operation
outcome alone — it is unchanged under any change of other devices'
outcomes, so one device's failure cannot alter another's entry. The
embedding is a pure function of the registry: no call path mutates it. -/
theorem execute_batch_spec (registered : List String) (operation : String)
    (run_op : String → Except String String) (devs : List String) :
    (∀ device_id,
      dictLookup (execute_batch registered operation run_op (some devs)) device_id =
        if device_id ∈ devs then some (batch_entry registered operation run_op device_id)
        else none) ∧
    (∀ device_id,
      List.count device_id
          ((execute_batch registered operation run_op (some devs)).map Prod.fst) =
        if device_id ∈ devs then 1 else 0) ∧
    execute_batch registered operation run_op none =
      execute_batch registered operation run_op (some registered) ∧
    (∀ device_id, device_id ∉ registered →
      batch_entry registered operation run_op device_id =
        BatchResult.error ("Device " ++ device_id ++ " not found")) ∧
    (∀ device_id r, device_id ∈ registered → run_op device_id = Except.ok r →
      batch_entry registered operation run_op device_id = BatchResult.success r) ∧
    (∀ device_id e, device_id ∈ registered → run_op device_id = Except.error e →
      batch_entry registered operation run_op device_id =
        BatchResult.error ("Operation " ++ operation ++ " failed: " ++ e)) ∧
    (∀ (run_op₂ : String → Except String String) device_id,
      run_op device_id = run_op₂ device_id →
      batch_entry registered operation run_op device_id =
        batch_entry registered operation run_op₂ device_id) := by
  have hlook : ∀ device_id,
      dictLookup (execute_batch registered operation run_op (some devs)) device_id =
        if device_id ∈ devs then some (batch_entry registered operation run_op device_id)
        else none := by
    intro device_id
    have h := dictLookup_foldl_dictInsert
      (fun device_id => batch_entry registered operation run_op device_id) devs [] device_id
    simpa [execute_batch, dictLookup] using h
  refine ⟨hlook, ?_, rfl, ?_, ?_, ?_, ?_⟩
  · intro device_id
    have hnodup := nodup_keys_foldl_dictInsert
      (fun device_id => batch_entry registered operation run_op device_id) devs [] (by simp)
    by_cases hd : device_id ∈ devs
    · have hsome : dictLookup (execute_batch registered operation run_op (some devs))
          device_id = some (batch_entry registered operation run_op device_id) := by
        rw [hlook device_id, if_pos hd]
      have hm : device_id ∈
          (execute_batch registered operation run_op (some devs)).map Prod.fst := by
        by_contra hnm
        rw [← dictLookup_eq_none_iff] at hnm
        rw [hsome] at hnm
        cases hnm
      rw [if_pos hd]
      exact List.count_eq_one_of_mem hnodup hm
    · have hnone : dictLookup (execute_batch registered operation run_op (some devs))
          device_id = none := by
        rw [hlook device_id, if_neg hd]
      rw [dictLookup_eq_none_iff] at hnone
      rw [if_neg hd]
      exact List.count_eq_zero_of_not_mem hnone
  · intro device_id hni
    have hc : registered.contains device_id = false := by simp [hni]
    simp [batch_entry, execute_single_operation, hc, hni]
  · intro device_id r hmem hrun
    have hc : registered.contains device_id = true := by simp [hmem]
    simp [batch_entry, execute_single_operation, hc, hrun, hmem]
  · intro device_id e hmem hrun
    have hc : registered.contains device_id = true := by simp [hmem]
    simp [batch_entry, execute_single_operation, hc, hrun, hmem]
  · intro run_op₂ device_id heq
    rw [batch_entry, batch_entry, execute_single_operation, execute_single_operation, heq]

/-- Witness for C5 over the registry `["d1", "d2"]` with the request
`["d1", "d2", "d3"]`, where d1's ping succeeds, d2's raises and d3 is
unknown: d3 gets the not-found error entry, d1 a success entry, d2 its
own wrapped error entry, and each requested id has exactly one entry. -/
theorem execute_batch_spec_witness :
    batch_entry ["d1", "d2"] "ping"
        (fun device_id => if device_id = "d1" then Except.ok "pong" else Except.error "boom")
        "d3" =
      BatchResult.error ("Device " ++ "d3" ++ " not found") ∧
    batch_entry ["d1", "d2"] "ping"
        (fun device_id => if device_id = "d1" then Except.ok "pong" else Except.error "boom")
        "d1" =
      BatchResult.success "pong" ∧
    batch_entry ["d1", "d2"] "ping"
        (fun device_id => if device_id = "d1" then Except.ok "pong" else Except.error "boom")
        "d2" =
      BatchResult.error ("Operation " ++ "ping" ++ " failed: " ++ "boom") ∧
    List.count "d2"
        ((execute_batch ["d1", "d2"] "ping"
          (fun device_id => if device_id = "d1" then Except.ok "pong" else Except.error "boom")
          (some ["d1", "d2", "d3"])).map Prod.fst) =
      1 ∧
    List.count "d9"
        ((execute_batch ["d1", "d2"] "ping"
          (fun device_id => if device_id = "d1" then Except.ok "pong" else Except.error "boom")
          (some ["d1", "d2", "d3"])).map Prod.fst) =
      0 := by
  have h := execute_batch_spec ["d1", "d2"] "ping"
    (fun device_id => if device_id = "d1" then Except.ok "pong" else Except.error "boom")
    ["d1", "d2", "d3"]
  refine ⟨h.2.2.2.1 "d3" (by decide), h.2.2.2.2.1 "d1" "pong" (by decide) rfl,
    h.2.2.2.2.2.1 "d2" "boom" (by decide) rfl, ?_, ?_⟩
  · rw [h.2.1 "d2"]
    simp
  · rw [h.2.1 "d9"]
    simp

/-- C7: `apply_profile` errors with ProfileNotFound for every unknown
profile name (whatever the device argument) and with
ProfileIncompatible for every registered device whose model is not in
the profile's compatibility list, in both cases with no setting applied
to the device; otherwise, when every setting application succeeds it
returns `true` having applied all the profile's settings in order, and
when some setting application throws it returns `false` — not an
exception — keeping exactly the already-applied prefix (no rollback). -/
theorem apply_profile_spec (profiles : List (String × DeviceProfile)) (model : String)
    (set_ok : String → Bool) (device_id profile_name : String) :
    (∀ device_model : Option String, dictLookup profiles profile_name = none →
      apply_profile profiles device_model set_ok device_id profile_name =
        (Except.error (ApplyProfileError.profileNotFound profile_name), [])) ∧
    (∀ profile, dictLookup profiles profile_name = some profile →
      model ∉ profile.compatibility →
      apply_profile profiles (some model) set_ok device_id profile_name =
        (Except.error (ApplyProfileError.profileIncompatible profile_name device_id), [])) ∧
    (∀ profile, dictLookup profiles profile_name = some profile →
      model ∈ profile.compatibility →
      (∀ sv ∈ profile.settings, set_ok sv.1 = true) →
      apply_profile profiles (some model) set_ok device_id profile_name =
        (Except.ok true, profile.settings)) ∧
    (∀ profile, dictLookup profiles profile_name = some profile →
      model ∈ profile.compatibility →
      (∃ sv ∈ profile.settings, set_ok sv.1 = false) →
      apply_profile profiles (some model) set_ok device_id profile_name =
        (Except.ok false, profile.settings.takeWhile (fun sv => set_ok sv.1))) := by
  refine ⟨?_, ?_, ?_, ?_⟩
  · intro device_model hnone
    rw [apply_profile, hnone]
  · intro profile hsome hni
    have hc : profile.compatibility.contains model = false := by simp [hni]
    rw [apply_profile, hsome]
    simp [hc, hni]
  · intro profile hsome hmem hall
    have hc : profile.compatibility.contains model = true := by simp [hmem]
    rw [apply_profile, hsome]
    simp [hc, hmem, apply_settings_all_ok set_ok profile.settings hall]
  · intro profile hsome hmem hfail
    have hc : profile.compatibility.contains model = true := by simp [hmem]
    rw [apply_profile, hsome]
    simp [hc, hmem, apply_settings_with_failure set_ok profile.settings hfail]

/-- Witness for C7 on a one-profile store: an unknown name errors with
ProfileNotFound; an incompatible model errors with ProfileIncompatible
and applies nothing; a compatible device with one failing setting gets
`false` with only the preceding settings applied. -/
theorem apply_profile_spec_witness :
    apply_profile
        [("gaming", { name := "gaming", settings := [("brightness", "100"), ("dnd", "on")],
                      compatibility := ["Pixel"], performance_targets := [] })]
        (some "Pixel") (fun _ => true) "d1" "office" =
      (Except.error (ApplyProfileError.profileNotFound "office"), []) ∧
    apply_profile
        [("gaming", { name := "gaming", settings := [("brightness", "100"), ("dnd", "on")],
                      compatibility := ["Pixel"], performance_targets := [] })]
        (some "Galaxy") (fun _ => true) "d1" "gaming" =
      (Except.error (ApplyProfileError.profileIncompatible "gaming" "d1"), []) ∧
    apply_profile
        [("gaming", { name := "gaming", settings := [("brightness", "100"), ("dnd", "on")],
                      compatibility := ["Pixel"], performance_targets := [] })]
        (some "Pixel") (fun _ => true) "d1" "gaming" =
      (Except.ok true, [("brightness", "100"), ("dnd", "on")]) ∧
    apply_profile
        [("gaming", { name := "gaming", settings := [("brightness", "100"), ("dnd", "on")],
                      compatibility := ["Pixel"], performance_targets := [] })]
        (some "Pixel") (fun s => s == "brightness") "d1" "gaming" =
      (Except.ok false,
        [("brightness", "100"), ("dnd", "on")].takeWhile
          (fun sv => (fun s => s == "brightness") sv.1)) := by
  refine ⟨?_, ?_, ?_, ?_⟩
  · exact (apply_profile_spec
      [("gaming", { name := "gaming", settings := [("brightness", "100"), ("dnd", "on")],
                    compatibility := ["Pixel"], performance_targets := [] })]
      "Pixel" (fun _ => true) "d1" "office").1 (some "Pixel") rfl
  · exact (apply_profile_spec
      [("gaming", { name := "gaming", settings := [("brightness", "100"), ("dnd", "on")],
                    compatibility := ["Pixel"], performance_targets := [] })]
      "Galaxy" (fun _ => true) "d1" "gaming").2.1 _ rfl (by decide)
  · exact (apply_profile_spec
      [("gaming", { name := "gaming", settings := [("brightness", "100"), ("dnd", "on")],
                    compatibility := ["Pixel"], performance_targets := [] })]
      "Pixel" (fun _ => true) "d1" "gaming").2.2.1 _ rfl (by decide) (by decide)
  · exact (apply_profile_spec
      [("gaming", { name := "gaming", settings := [("brightness", "100"), ("dnd", "on")],
                    compatibility := ["Pixel"], performance_targets := [] })]
      "Pixel" (fun s => s == "brightness") "d1" "gaming").2.2.2 _ rfl (by decide) (by decide)

end SoloX
